import Mathlib

/-!
Verification of the `cpuset` cgroup-v1 controller (`src/cpuset.rs`).

The Rust unit is shallowly embedded: pseudo-file I/O becomes an explicit
read-side file store (`FS`) and a write-side oracle (`WriteOracle`) plus
explicit state passing; `Result<T, CgroupError>` becomes
`Except CgroupError`; `u64` values become `Nat` with the `< 2 ^ 64` bound
enforced where the Rust `str::parse::<u64>` enforces it; `i64` becomes `Int`.
Items of the crate root (`CgroupError`, `Subsystem`, `CpuResources`,
`open_path`) are not under `src/`; the ones needed here are modelled from
the spec and from their uses in `cpuset.rs`, marked as such below.
-/

namespace Cgroup

/-- Modelled from the spec (section 7 and the crate-root `CgroupError` enum,
whose definition is outside this unit): a read-class I/O error, a
write-class I/O error, a local parse error, and the error the external
`open_path` primitive returns when opening a pseudo-file fails.  The
`std::io::Error` payloads carried by the Rust variants are dropped: no claim
inspects them. -/
inductive CgroupError where
  | ReadError : CgroupError
  | WriteError : CgroupError
  | ParseError : CgroupError
  | FsError : CgroupError
deriving DecidableEq, Repr

/-- The characters the Rust `str::trim` removes: code points with the Unicode
`White_Space` property. -/
def rustIsWhitespace (c : Char) : Bool :=
  (0x09 ≤ c.toNat && c.toNat ≤ 0x0D) || c.toNat = 0x20 || c.toNat = 0x85 ||
  c.toNat = 0xA0 || c.toNat = 0x1680 ||
  (0x2000 ≤ c.toNat && c.toNat ≤ 0x200A) ||
  c.toNat = 0x2028 || c.toNat = 0x2029 || c.toNat = 0x202F ||
  c.toNat = 0x205F || c.toNat = 0x3000

/-- the Rust `str::trim` at the character-list level: drop whitespace from
the front, then from the back. -/
def rustTrimData (l : List Char) : List Char :=
  ((l.dropWhile rustIsWhitespace).reverse.dropWhile rustIsWhitespace).reverse

/-- the Rust `str::trim`: remove leading and trailing whitespace. -/
def rustTrim (s : String) : String :=
  ⟨rustTrimData s.data⟩

/-- Accumulating loop of the decimal-digit parser: fold digits into `acc`,
fail on the first non-digit. -/
def digitsToNatGo : List Char → Nat → Option Nat
  | [], acc => some acc
  | c :: rest, acc =>
    if c.isDigit then digitsToNatGo rest (acc * 10 + (c.toNat - Char.toNat '0'))
    else none

/-- Decimal digits to their value; `none` on an empty list or a non-digit. -/
def digitsToNat : List Char → Option Nat
  | [] => none
  | cs => digitsToNatGo cs 0

/-- the Rust `str::parse::<u64>`: an optional leading `+` sign (a `-` sign is
rejected for unsigned types), then one or more ASCII decimal digits, with
the value required to fit in 64 bits. -/
def parseU64 (s : String) : Option Nat :=
  let core : Option Nat :=
    match s.data with
    | [] => none
    | c :: rest => if c = '+' then digitsToNat rest else digitsToNat s.data
  match core with
  | some n => if n < 2 ^ 64 then some n else none
  | none => none

/-- Read-side model of the pseudo-filesystem: each control-file name maps to
its content, or `none` when opening (or reading) it fails. -/
def FS : Type := String → Option String

/-- Modelled from the spec (section 6 `open_property` and the crate-root
`Controller::open_path`, whose definition is outside this unit): resolve and
open the named pseudo-file under the group path of the controller for reading;
an I/O failure surfaces as an error value. -/
def open_path_read (fs : FS) (name : String) : Except CgroupError String :=
  match fs name with
  | some content => Except.ok content
  | none => Except.error CgroupError.FsError

/-- `read_string_from` (src/cpuset.rs:114): read the whole file and trim the
content.  A `File` is embedded as the content string it delivers; the
`read_to_string` I/O failure path is subsumed by the open failure of
`open_path_read` (the model delivers content only when the read succeeds). -/
def read_string_from (content : String) : Except CgroupError String :=
  Except.ok (rustTrim content)

/-- `read_u64_from` (src/cpuset.rs:122): read the whole file, trim, parse as
`u64`; a parse failure is `ParseError`. -/
def read_u64_from (content : String) : Except CgroupError Nat :=
  match parseU64 (rustTrim content) with
  | some n => Except.ok n
  | none => Except.error CgroupError.ParseError

/-- `Result::unwrap_or`. -/
def unwrapOr {α : Type} (r : Except CgroupError α) (d : α) : α :=
  match r with
  | Except.ok a => a
  | Except.error _ => d

/-- `Result::ok`. -/
def resultOk {α : Type} (r : Except CgroupError α) : Option α :=
  match r with
  | Except.ok a => some a
  | Except.error _ => none

/-- `CpuSet` (src/cpuset.rs:23): the snapshot of the cpuset controller
state, one field per pseudo-file. -/
structure CpuSet where
  cpu_exclusive : Bool
  cpus : String
  effective_cpus : String
  effective_mems : String
  mem_exclusive : Bool
  mem_hardwall : Bool
  memory_migrate : Bool
  memory_pressure : Nat
  memory_pressure_enabled : Option Bool
  memory_spread_page : Bool
  memory_spread_slab : Bool
  mems : String
  sched_load_balance : Bool
  sched_relax_domain_level : Nat
deriving DecidableEq, Repr

/-- `CpuSetController::cpuset` (src/cpuset.rs:143): read every pseudo-file,
decode each field, and default each field independently on failure. -/
def cpuset (fs : FS) : CpuSet :=
  { cpu_exclusive :=
      unwrapOr (((open_path_read fs "cpuset.cpu_exclusive").bind
        read_u64_from).map (fun x => x == 1)) false
    cpus :=
      unwrapOr ((open_path_read fs "cpuset.cpus").bind read_string_from) ""
    effective_cpus :=
      unwrapOr ((open_path_read fs "cpuset.effective_cpus").bind
        read_string_from) ""
    effective_mems :=
      unwrapOr ((open_path_read fs "cpuset.effective_mems").bind
        read_string_from) ""
    mem_exclusive :=
      unwrapOr (((open_path_read fs "cpuset.mem_exclusive").bind
        read_u64_from).map (fun x => x == 1)) false
    mem_hardwall :=
      unwrapOr (((open_path_read fs "cpuset.mem_hardwall").bind
        read_u64_from).map (fun x => x == 1)) false
    memory_migrate :=
      unwrapOr (((open_path_read fs "cpuset.memory_migrate").bind
        read_u64_from).map (fun x => x == 1)) false
    memory_pressure :=
      unwrapOr ((open_path_read fs "cpuset.memory_pressure").bind
        read_u64_from) 0
    memory_pressure_enabled :=
      resultOk (((open_path_read fs "cpuset.memory_pressure_enabled").bind
        read_u64_from).map (fun x => x == 1))
    memory_spread_page :=
      unwrapOr (((open_path_read fs "cpuset.memory_spread_page").bind
        read_u64_from).map (fun x => x == 1)) false
    memory_spread_slab :=
      unwrapOr (((open_path_read fs "cpuset.memory_spread_slab").bind
        read_u64_from).map (fun x => x == 1)) false
    mems :=
      unwrapOr ((open_path_read fs "cpuset.mems").bind read_string_from) ""
    sched_load_balance :=
      unwrapOr (((open_path_read fs "cpuset.sched_load_balance").bind
        read_u64_from).map (fun x => x == 1)) false
    sched_relax_domain_level :=
      unwrapOr ((open_path_read fs "cpuset.sched_relax_domain_level").bind
        read_u64_from) 0 }

/-- One attempted `write_all` call: the pseudo-file name it targets and the
exact byte payload handed to it. -/
structure WriteAttempt where
  file : String
  data : String
deriving DecidableEq, Repr

/-- Write-side model of the environment: whether opening a named pseudo-file
for writing succeeds, and whether the kernel accepts a given payload written
to a given file. -/
structure WriteOracle where
  openOk : String → Bool
  writeOk : String → String → Bool

/-- Mutable pseudo-filesystem state threaded through the setters. -/
structure SysState where
  files : FS

/-- Outcome of one setter call: the returned `Result`, the state after the
call, and the list of write attempts performed (in order). -/
structure WriteOutcome where
  result : Except CgroupError Unit
  state : SysState
  trace : List WriteAttempt

/-- Modelled from the spec (section 6 `open_property` for write, plus
`file.write_all(..).map_err(CgroupError::WriteError)` from the source):
open the named pseudo-file for writing — failure surfaces as an error value
with no write attempted — then hand `payload` to one `write_all` call; a
rejected write is a `WriteError`, an accepted one replaces the content of the
file with exactly the written bytes. -/
def open_path_write (o : WriteOracle) (st : SysState) (name payload : String) :
    WriteOutcome :=
  if o.openOk name then
    if o.writeOk name payload then
      { result := Except.ok ()
        state := { files := fun n => if n = name then some payload
                     else st.files n }
        trace := [{ file := name, data := payload }] }
    else
      { result := Except.error CgroupError.WriteError
        state := st
        trace := [{ file := name, data := payload }] }
  else
    { result := Except.error CgroupError.FsError
      state := st
      trace := [] }

/-- `CpuSetController::set_cpu_exclusive` (src/cpuset.rs:202): write the
single byte `"1"` or `"0"`. -/
def set_cpu_exclusive (o : WriteOracle) (st : SysState) (b : Bool) :
    WriteOutcome :=
  open_path_write o st "cpuset.cpu_exclusive" (if b then "1" else "0")

/-- `CpuSetController::set_mem_exclusive` (src/cpuset.rs:214). -/
def set_mem_exclusive (o : WriteOracle) (st : SysState) (b : Bool) :
    WriteOutcome :=
  open_path_write o st "cpuset.mem_exclusive" (if b then "1" else "0")

/-- `CpuSetController::set_cpus` (src/cpuset.rs:228): write the caller-supplied
range string verbatim. -/
def set_cpus (o : WriteOracle) (st : SysState) (cpus : String) :
    WriteOutcome :=
  open_path_write o st "cpuset.cpus" cpus

/-- `CpuSetController::set_mems` (src/cpuset.rs:237): write the caller-supplied
range string verbatim. -/
def set_mems (o : WriteOracle) (st : SysState) (mems : String) :
    WriteOutcome :=
  open_path_write o st "cpuset.mems" mems

/-- `CpuSetController::set_hardwall` (src/cpuset.rs:248). -/
def set_hardwall (o : WriteOracle) (st : SysState) (b : Bool) :
    WriteOutcome :=
  open_path_write o st "cpuset.mem_hardwall" (if b then "1" else "0")

/-- `CpuSetController::set_load_balancing` (src/cpuset.rs:260). -/
def set_load_balancing (o : WriteOracle) (st : SysState) (b : Bool) :
    WriteOutcome :=
  open_path_write o st "cpuset.sched_load_balance" (if b then "1" else "0")

/-- the Rust `i64::to_string`: plain decimal digits, preceded by `-` exactly
when the value is negative. -/
def i64_to_string (i : Int) : String :=
  if i < 0 then "-" ++ Nat.repr i.natAbs else Nat.repr i.natAbs

/-- `CpuSetController::set_rebalance_relax_domain_level`
(src/cpuset.rs:273): write the decimal text of the signed value. -/
def set_rebalance_relax_domain_level (o : WriteOracle) (st : SysState)
    (i : Int) : WriteOutcome :=
  open_path_write o st "cpuset.sched_relax_domain_level" (i64_to_string i)

/-- `CpuSetController::set_memory_migration` (src/cpuset.rs:281). -/
def set_memory_migration (o : WriteOracle) (st : SysState) (b : Bool) :
    WriteOutcome :=
  open_path_write o st "cpuset.memory_migrate" (if b then "1" else "0")

/-- `CpuSetController::set_memory_spread_page` (src/cpuset.rs:293). -/
def set_memory_spread_page (o : WriteOracle) (st : SysState) (b : Bool) :
    WriteOutcome :=
  open_path_write o st "cpuset.memory_spread_page" (if b then "1" else "0")

/-- `CpuSetController::set_memory_spread_slab` (src/cpuset.rs:305). -/
def set_memory_spread_slab (o : WriteOracle) (st : SysState) (b : Bool) :
    WriteOutcome :=
  open_path_write o st "cpuset.memory_spread_slab" (if b then "1" else "0")

/-- `CpuSetController::set_enable_memory_pressure` (src/cpuset.rs:320). -/
def set_enable_memory_pressure (o : WriteOracle) (st : SysState) (b : Bool) :
    WriteOutcome :=
  open_path_write o st "cpuset.memory_pressure_enabled"
    (if b then "1" else "0")

/-- Modelled from the spec and the uses in `Controller::apply`
(src/cpuset.rs:84): the slice of the crate-root `CpuResources` that `apply`
reads — the `update_values` flag and the `cpus` and `mems` range strings. -/
structure CpuResources where
  update_values : Bool
  cpus : String
  mems : String

/-- `Controller::apply` for `CpuSetController` (src/cpuset.rs:82): when
`update_values` is set, call `set_cpus` and then `set_mems`, discarding both
results (`let _ = ...`); returns the final state and the concatenated write
trace. -/
def apply (o : WriteOracle) (st : SysState) (res : CpuResources) :
    SysState × List WriteAttempt :=
  if res.update_values then
    let r1 := set_cpus o st res.cpus
    let r2 := set_mems o r1.state res.mems
    (r2.state, r1.trace ++ r2.trace)
  else
    (st, [])

/-- `CpuSetController` (src/cpuset.rs:17): the hierarchy base path and the path of
this group, embedded as plain strings. -/
structure CpuSetController where
  base : String
  path : String
deriving DecidableEq, Repr

/-- Modelled from the spec (section 9 and the crate-root `Subsystem` enum,
whose definition is outside this unit): a tagged union over the concrete
controllers; the `CpuSet` variant holds a `CpuSetController`, and `other`
stands for every other controller variant (matched by `_` in the source). -/
inductive Subsystem where
  | CpuSet : CpuSetController → Subsystem
  | other : Subsystem
deriving DecidableEq, Repr

/-- Possible outcomes of the `From<&Subsystem> for &CpuSetController`
conversion: either a controller is returned, or the process aborts —
`assert_eq!(1, 0)` panics before `mem::uninitialized()` is reached. -/
inductive ConvOutcome where
  | ok : CpuSetController → ConvOutcome
  | abortProcess : ConvOutcome
deriving DecidableEq, Repr

/-- `From<&Subsystem> for &CpuSetController` (src/cpuset.rs:100): return the
contained controller for the `CpuSet` variant; for any other variant,
`assert_eq!(1, 0)` fails and the process panics. -/
def from_subsystem : Subsystem → ConvOutcome
  | Subsystem.CpuSet c => ConvOutcome.ok c
  | Subsystem.other => ConvOutcome.abortProcess

/-- The combined open-and-decode result for a `u64`-valued pseudo-file, as
the snapshot query computes it before defaulting. -/
def readU64Res (fs : FS) (name : String) : Except CgroupError Nat :=
  (open_path_read fs name).bind read_u64_from

/-- The combined open-and-decode result for a string-valued pseudo-file, as
the snapshot query computes it before defaulting. -/
def readStringRes (fs : FS) (name : String) : Except CgroupError String :=
  (open_path_read fs name).bind read_string_from

/-- The string decode rule exactly as the specification words it: remove
trailing whitespace only, preserving leading whitespace verbatim.  Stated
for comparison against `read_string_from`, which embeds the source. -/
def trimTrailingOnly (s : String) : String :=
  ⟨(s.data.reverse.dropWhile rustIsWhitespace).reverse⟩

/-- The optional-boolean decode rule stated over raw file content: absent
or unparsable content decodes to `none`, content parsing to `n` decodes to
`some (n == 1)`. -/
def optBoolDecodeOfFile (content : Option String) : Option Bool :=
  match content with
  | none => none
  | some c =>
    match parseU64 (rustTrim c) with
    | none => none
    | some n => some (n == 1)

/-- A write oracle in which every open and every write succeeds. -/
def oracleAllOk : WriteOracle :=
  { openOk := fun _ => true, writeOk := fun _ _ => true }

/-- A write oracle in which every open succeeds and every write is
rejected by the kernel. -/
def oracleNoWrite : WriteOracle :=
  { openOk := fun _ => true, writeOk := fun _ _ => false }

/-- A write oracle in which every open succeeds but every write to
`cpuset.cpus` is rejected by the kernel. -/
def oracleCpusFail : WriteOracle :=
  { openOk := fun _ => true
    writeOk := fun n _ => !(n == "cpuset.cpus") }

/-- The empty pseudo-filesystem: no control file can be opened. -/
def emptySt : SysState := { files := fun _ => none }

/-- The defaulting rule for a boolean snapshot field: a decoded integer
compares against `1`, any failure defaults to `false`. -/
def decodedOrFalse (r : Except CgroupError Nat) : Bool :=
  match r with
  | Except.ok n => n == 1
  | Except.error _ => false

/-- The defaulting rule for an unsigned-counter snapshot field: any failure
defaults to `0`. -/
def decodedOrZero (r : Except CgroupError Nat) : Nat :=
  match r with
  | Except.ok n => n
  | Except.error _ => 0

/-- The defaulting rule for a string snapshot field: any failure defaults to
the empty string. -/
def decodedOrEmpty (r : Except CgroupError String) : String :=
  match r with
  | Except.ok s => s
  | Except.error _ => ""

/-- The defaulting rule for the root-only optional boolean field: any
failure defaults to `none`, a decoded integer to `some (value == 1)`. -/
def decodedOrNone (r : Except CgroupError Nat) : Option Bool :=
  match r with
  | Except.ok n => some (n == 1)
  | Except.error _ => none

section Helpers

lemma unwrapOr_eq_decodedOrZero (r : Except CgroupError Nat) :
    unwrapOr r 0 = decodedOrZero r := by
  cases r <;> rfl

lemma unwrapOr_eq_decodedOrEmpty (r : Except CgroupError String) :
    unwrapOr r "" = decodedOrEmpty r := by
  cases r <;> rfl

lemma unwrapOrMap_eq_decodedOrFalse (r : Except CgroupError Nat) :
    unwrapOr (r.map (fun x => x == 1)) false = decodedOrFalse r := by
  cases r <;> rfl

lemma resultOkMap_eq_decodedOrNone (r : Except CgroupError Nat) :
    resultOk (r.map (fun x => x == 1)) = decodedOrNone r := by
  cases r <;> rfl

lemma boolField_true_iff (fs : FS) (name : String) :
    unwrapOr (((open_path_read fs name).bind read_u64_from).map
        (fun x => x == 1)) false = true ↔
      (∃ c, fs name = some c ∧ parseU64 (rustTrim c) = some 1) := by
  cases h : fs name with
  | none =>
    simp [open_path_read, h, Except.bind, Except.map, unwrapOr]
  | some c =>
    cases hp : parseU64 (rustTrim c) with
    | none =>
      simp [open_path_read, read_u64_from, h, hp, Except.bind, Except.map,
        unwrapOr]
    | some n =>
      simp [open_path_read, read_u64_from, h, hp, Except.bind, Except.map,
        unwrapOr]

lemma optBoolField_eq (fs : FS) (name : String) :
    resultOk (((open_path_read fs name).bind read_u64_from).map
        (fun x => x == 1)) = optBoolDecodeOfFile (fs name) := by
  cases h : fs name with
  | none =>
    simp [open_path_read, h, Except.bind, Except.map, resultOk,
      optBoolDecodeOfFile]
  | some c =>
    cases hp : parseU64 (rustTrim c) with
    | none =>
      simp [open_path_read, read_u64_from, h, hp, Except.bind, Except.map,
        resultOk, optBoolDecodeOfFile]
    | some n =>
      simp [open_path_read, read_u64_from, h, hp, Except.bind, Except.map,
        resultOk, optBoolDecodeOfFile]

lemma head_dropWhile_not (p : Char → Bool) (l : List Char) (c : Char)
    (h : (l.dropWhile p).head? = some c) : p c = false := by
  induction l with
  | nil => simp [List.dropWhile] at h
  | cons x xs ih =>
    cases hp : p x with
    | true =>
      rw [show (x :: xs).dropWhile p = xs.dropWhile p by
        simp [List.dropWhile, hp]] at h
      exact ih h
    | false =>
      rw [show (x :: xs).dropWhile p = x :: xs by
        simp [List.dropWhile, hp]] at h
      simp only [List.head?_cons, Option.some.injEq] at h
      subst h
      exact hp

lemma head?_append_left {l r : List Char} {c : Char}
    (h : l.head? = some c) : (l ++ r).head? = some c := by
  cases l with
  | nil => simp at h
  | cons x xs => simp_all

lemma rustTrimData_decomposition (xs : List Char) :
    ∃ l r : List Char,
      xs = l ++ rustTrimData xs ++ r ∧
      (∀ c ∈ l, rustIsWhitespace c = true) ∧
      (∀ c ∈ r, rustIsWhitespace c = true) ∧
      (∀ c, (rustTrimData xs).head? = some c →
        rustIsWhitespace c = false) ∧
      (∀ c, (rustTrimData xs).getLast? = some c →
        rustIsWhitespace c = false) := by
  have hx : rustTrimData xs ++
      ((xs.dropWhile rustIsWhitespace).reverse.takeWhile
        rustIsWhitespace).reverse = xs.dropWhile rustIsWhitespace := by
    unfold rustTrimData
    rw [← List.reverse_append,
      List.takeWhile_append_dropWhile rustIsWhitespace
        (xs.dropWhile rustIsWhitespace).reverse,
      List.reverse_reverse]
  refine ⟨xs.takeWhile rustIsWhitespace,
    ((xs.dropWhile rustIsWhitespace).reverse.takeWhile
      rustIsWhitespace).reverse, ?_, ?_, ?_, ?_, ?_⟩
  · rw [List.append_assoc, hx,
      List.takeWhile_append_dropWhile rustIsWhitespace xs]
  · intro c hc
    exact List.mem_takeWhile_imp hc
  · intro c hc
    rw [List.mem_reverse] at hc
    exact List.mem_takeWhile_imp hc
  · intro c hc
    have hr : (xs.dropWhile rustIsWhitespace).head? = some c := by
      rw [← hx]
      exact head?_append_left hc
    exact head_dropWhile_not rustIsWhitespace xs c hr
  · intro c hc
    unfold rustTrimData at hc
    rw [List.getLast?_reverse] at hc
    exact head_dropWhile_not rustIsWhitespace
      (xs.dropWhile rustIsWhitespace).reverse c hc

lemma bool_roundtrip_read (fs : FS) (name : String) (b : Bool)
    (h : fs name = some (if b then "1" else "0")) :
    unwrapOr (((open_path_read fs name).bind read_u64_from).map
      (fun x => x == 1)) false = b := by
  cases b with
  | false =>
    have hf : fs name = some "0" := h
    unfold open_path_read
    rw [hf]
    decide
  | true =>
    have ht : fs name = some "1" := h
    unfold open_path_read
    rw [ht]
    decide

lemma optBool_roundtrip_read (fs : FS) (name : String) (b : Bool)
    (h : fs name = some (if b then "1" else "0")) :
    resultOk (((open_path_read fs name).bind read_u64_from).map
      (fun x => x == 1)) = some b := by
  cases b with
  | false =>
    have hf : fs name = some "0" := h
    unfold open_path_read
    rw [hf]
    decide
  | true =>
    have ht : fs name = some "1" := h
    unfold open_path_read
    rw [ht]
    decide

lemma open_path_write_trace (o : WriteOracle) (st : SysState)
    (name payload : String) :
    (open_path_write o st name payload).trace =
      if o.openOk name then [{ file := name, data := payload }] else [] := by
  unfold open_path_write
  cases h : o.openOk name <;> cases hw : o.writeOk name payload <;>
    simp [h, hw]

lemma open_path_write_result (o : WriteOracle) (st : SysState)
    (name payload : String) :
    (open_path_write o st name payload).result =
      if o.openOk name then
        (if o.writeOk name payload then Except.ok ()
         else Except.error CgroupError.WriteError)
      else Except.error CgroupError.FsError := by
  unfold open_path_write
  cases h : o.openOk name <;> cases hw : o.writeOk name payload <;>
    simp [h, hw]

lemma open_path_write_ok_files (o : WriteOracle) (st : SysState)
    (name payload : String)
    (h : (open_path_write o st name payload).result = Except.ok ()) :
    (open_path_write o st name payload).state.files name = some payload := by
  unfold open_path_write at *
  cases ho : o.openOk name <;> cases hw : o.writeOk name payload <;>
    simp [ho, hw] at h ⊢

end Helpers

/-- C1: the aggregate snapshot query `cpuset()` never fails (it is a total
function of the file store); each field is computed independently from its
own pseudo-file, a failed field taking its default — `false` for booleans,
`0` for `memory_pressure` and `sched_relax_domain_level`, `""` for the four
range strings, `none` for `memory_pressure_enabled` — and a readable field
carrying its decoded value. -/
theorem cpuset_never_fails_fields_independently_defaulted (fs : FS) :
    (cpuset fs).cpu_exclusive =
      decodedOrFalse (readU64Res fs "cpuset.cpu_exclusive") ∧
    (cpuset fs).cpus = decodedOrEmpty (readStringRes fs "cpuset.cpus") ∧
    (cpuset fs).effective_cpus =
      decodedOrEmpty (readStringRes fs "cpuset.effective_cpus") ∧
    (cpuset fs).effective_mems =
      decodedOrEmpty (readStringRes fs "cpuset.effective_mems") ∧
    (cpuset fs).mem_exclusive =
      decodedOrFalse (readU64Res fs "cpuset.mem_exclusive") ∧
    (cpuset fs).mem_hardwall =
      decodedOrFalse (readU64Res fs "cpuset.mem_hardwall") ∧
    (cpuset fs).memory_migrate =
      decodedOrFalse (readU64Res fs "cpuset.memory_migrate") ∧
    (cpuset fs).memory_pressure =
      decodedOrZero (readU64Res fs "cpuset.memory_pressure") ∧
    (cpuset fs).memory_pressure_enabled =
      decodedOrNone (readU64Res fs "cpuset.memory_pressure_enabled") ∧
    (cpuset fs).memory_spread_page =
      decodedOrFalse (readU64Res fs "cpuset.memory_spread_page") ∧
    (cpuset fs).memory_spread_slab =
      decodedOrFalse (readU64Res fs "cpuset.memory_spread_slab") ∧
    (cpuset fs).mems = decodedOrEmpty (readStringRes fs "cpuset.mems") ∧
    (cpuset fs).sched_load_balance =
      decodedOrFalse (readU64Res fs "cpuset.sched_load_balance") ∧
    (cpuset fs).sched_relax_domain_level =
      decodedOrZero (readU64Res fs "cpuset.sched_relax_domain_level") :=
  ⟨unwrapOrMap_eq_decodedOrFalse _, unwrapOr_eq_decodedOrEmpty _,
   unwrapOr_eq_decodedOrEmpty _, unwrapOr_eq_decodedOrEmpty _,
   unwrapOrMap_eq_decodedOrFalse _, unwrapOrMap_eq_decodedOrFalse _,
   unwrapOrMap_eq_decodedOrFalse _, unwrapOr_eq_decodedOrZero _,
   resultOkMap_eq_decodedOrNone _, unwrapOrMap_eq_decodedOrFalse _,
   unwrapOrMap_eq_decodedOrFalse _, unwrapOr_eq_decodedOrEmpty _,
   unwrapOrMap_eq_decodedOrFalse _, unwrapOr_eq_decodedOrZero _⟩

/-- C2, counterexample: the claim says the conversion from a generic
`Subsystem` handle never asserts or aborts on a mismatched variant, but at
the concrete input `Subsystem.other` (any variant other than `CpuSet`) the
source runs `assert_eq!(1, 0)`, which panics and aborts the process. -/
theorem from_subsystem_aborts_on_mismatch :
    from_subsystem Subsystem.other = ConvOutcome.abortProcess := rfl

/-- C2, amended: every setter and the snapshot query return failures as
values, but the `From<&Subsystem>` conversion is total only on the `CpuSet`
variant — it returns the contained controller there, and asserts (aborting
the process) on every other variant. -/
theorem from_subsystem_ok_only_on_matching_variant (s : Subsystem) :
    from_subsystem s =
      (match s with
        | Subsystem.CpuSet c => ConvOutcome.ok c
        | Subsystem.other => ConvOutcome.abortProcess) := by
  cases s <;> rfl

/-- C3: a boolean snapshot field is `true` exactly when its pseudo-file
opened and its content, trimmed, parsed as an unsigned 64-bit integer equal
to `1`; any other parsed value and any open or parse failure yields
`false` — except `memory_pressure_enabled`, where a failure yields `none`
and a parsed value `n` yields `some (n == 1)`. -/
theorem bool_fields_decode_trimmed_u64_eq_one (fs : FS) :
    ((cpuset fs).cpu_exclusive = true ↔
      (∃ c, fs "cpuset.cpu_exclusive" = some c ∧
        parseU64 (rustTrim c) = some 1)) ∧
    ((cpuset fs).mem_exclusive = true ↔
      (∃ c, fs "cpuset.mem_exclusive" = some c ∧
        parseU64 (rustTrim c) = some 1)) ∧
    ((cpuset fs).mem_hardwall = true ↔
      (∃ c, fs "cpuset.mem_hardwall" = some c ∧
        parseU64 (rustTrim c) = some 1)) ∧
    ((cpuset fs).memory_migrate = true ↔
      (∃ c, fs "cpuset.memory_migrate" = some c ∧
        parseU64 (rustTrim c) = some 1)) ∧
    ((cpuset fs).memory_spread_page = true ↔
      (∃ c, fs "cpuset.memory_spread_page" = some c ∧
        parseU64 (rustTrim c) = some 1)) ∧
    ((cpuset fs).memory_spread_slab = true ↔
      (∃ c, fs "cpuset.memory_spread_slab" = some c ∧
        parseU64 (rustTrim c) = some 1)) ∧
    ((cpuset fs).sched_load_balance = true ↔
      (∃ c, fs "cpuset.sched_load_balance" = some c ∧
        parseU64 (rustTrim c) = some 1)) ∧
    ((cpuset fs).memory_pressure_enabled =
      optBoolDecodeOfFile (fs "cpuset.memory_pressure_enabled")) := by
  refine ⟨?_, ?_, ?_, ?_, ?_, ?_, ?_, ?_⟩
  case _ => exact boolField_true_iff fs "cpuset.cpu_exclusive"
  case _ => exact boolField_true_iff fs "cpuset.mem_exclusive"
  case _ => exact boolField_true_iff fs "cpuset.mem_hardwall"
  case _ => exact boolField_true_iff fs "cpuset.memory_migrate"
  case _ => exact boolField_true_iff fs "cpuset.memory_spread_page"
  case _ => exact boolField_true_iff fs "cpuset.memory_spread_slab"
  case _ => exact boolField_true_iff fs "cpuset.sched_load_balance"
  case _ => exact optBoolField_eq fs "cpuset.memory_pressure_enabled"

/-- C3, witness: on a store whose `cpuset.cpu_exclusive` file holds `"1"`,
the snapshot decodes the field to `true`. -/
theorem bool_fields_decode_trimmed_u64_eq_one_witness :
    (cpuset (fun n => if n = "cpuset.cpu_exclusive" then some " 1 "
      else none)).cpu_exclusive = true :=
  (bool_fields_decode_trimmed_u64_eq_one
    (fun n => if n = "cpuset.cpu_exclusive" then some " 1 " else none)).1.mpr
    ⟨" 1 ", by decide, by decide⟩

/-- C4, counterexample: the claim says `read_string_from` removes trailing
whitespace only and preserves leading whitespace verbatim; on the concrete
content `" 0-3"` the source returns `"0-3"` (leading space removed), while
removing trailing whitespace only would return `" 0-3"`, a different
string. -/
theorem read_string_not_trailing_only :
    read_string_from " 0-3" = Except.ok "0-3" ∧
    trimTrailingOnly " 0-3" = " 0-3" ∧
    ("0-3" == " 0-3") = false := by
  refine ⟨?_, by decide, by decide⟩
  exact congrArg Except.ok (by decide)

/-- C4, amended: for every string-valued property read, decoding removes
both leading and trailing whitespace: the returned string is a contiguous
slice of the content whose removed prefix and suffix consist entirely of
whitespace, and whose own first and last characters (when it is nonempty)
are not whitespace; the interior is preserved verbatim with no further
interpretation of the range syntax. -/
theorem read_string_trims_leading_and_trailing (content : String) :
    ∃ t l r : List Char,
      read_string_from content = Except.ok (String.mk t) ∧
      content.data = l ++ t ++ r ∧
      (∀ c ∈ l, rustIsWhitespace c = true) ∧
      (∀ c ∈ r, rustIsWhitespace c = true) ∧
      (∀ c, t.head? = some c → rustIsWhitespace c = false) ∧
      (∀ c, t.getLast? = some c → rustIsWhitespace c = false) := by
  obtain ⟨l, r, h1, h2, h3, h4, h5⟩ := rustTrimData_decomposition content.data
  exact ⟨rustTrimData content.data, l, r, rfl, h1, h2, h3, h4, h5⟩

/-- C4, witness: on the content `"  0-3 "` the decode returns the slice
`"0-3"`, with whitespace prefix and suffix removed. -/
theorem read_string_trims_leading_and_trailing_witness :
    read_string_from "  0-3 " = Except.ok "0-3" := by
  obtain ⟨t, l, r, h1, -, -, -, -, -⟩ :=
    read_string_trims_leading_and_trailing "  0-3 "
  have h2 : read_string_from "  0-3 " = Except.ok (rustTrim "  0-3 ") := rfl
  rw [h1] at h2
  rw [h1, Except.ok.inj h2]
  exact congrArg Except.ok (by decide)

/-- C5: every boolean setter performs exactly one write (when the open
succeeds) whose entire payload is the single byte `"1"` for `true` and
`"0"` for `false`, with no trailing newline; a write the kernel rejects
surfaces as `WriteError` and an accepted one as success. -/
theorem bool_setters_write_single_byte (o : WriteOracle) (st : SysState)
    (b : Bool) :
    ((if b then "1" else "0") : String).length = 1 ∧
    (((if b then "1" else "0") : String).data.contains
      (Char.ofNat 10)) = false ∧
    (set_cpu_exclusive o st b).trace =
      (if o.openOk "cpuset.cpu_exclusive" then
        [{ file := "cpuset.cpu_exclusive",
           data := if b then "1" else "0" }] else []) ∧
    (set_cpu_exclusive o st b).result =
      (if o.openOk "cpuset.cpu_exclusive" then
        (if o.writeOk "cpuset.cpu_exclusive" (if b then "1" else "0") then
          Except.ok () else Except.error CgroupError.WriteError)
       else Except.error CgroupError.FsError) ∧
    (set_mem_exclusive o st b).trace =
      (if o.openOk "cpuset.mem_exclusive" then
        [{ file := "cpuset.mem_exclusive",
           data := if b then "1" else "0" }] else []) ∧
    (set_mem_exclusive o st b).result =
      (if o.openOk "cpuset.mem_exclusive" then
        (if o.writeOk "cpuset.mem_exclusive" (if b then "1" else "0") then
          Except.ok () else Except.error CgroupError.WriteError)
       else Except.error CgroupError.FsError) ∧
    (set_hardwall o st b).trace =
      (if o.openOk "cpuset.mem_hardwall" then
        [{ file := "cpuset.mem_hardwall",
           data := if b then "1" else "0" }] else []) ∧
    (set_hardwall o st b).result =
      (if o.openOk "cpuset.mem_hardwall" then
        (if o.writeOk "cpuset.mem_hardwall" (if b then "1" else "0") then
          Except.ok () else Except.error CgroupError.WriteError)
       else Except.error CgroupError.FsError) ∧
    (set_load_balancing o st b).trace =
      (if o.openOk "cpuset.sched_load_balance" then
        [{ file := "cpuset.sched_load_balance",
           data := if b then "1" else "0" }] else []) ∧
    (set_load_balancing o st b).result =
      (if o.openOk "cpuset.sched_load_balance" then
        (if o.writeOk "cpuset.sched_load_balance"
            (if b then "1" else "0") then
          Except.ok () else Except.error CgroupError.WriteError)
       else Except.error CgroupError.FsError) ∧
    (set_memory_migration o st b).trace =
      (if o.openOk "cpuset.memory_migrate" then
        [{ file := "cpuset.memory_migrate",
           data := if b then "1" else "0" }] else []) ∧
    (set_memory_migration o st b).result =
      (if o.openOk "cpuset.memory_migrate" then
        (if o.writeOk "cpuset.memory_migrate" (if b then "1" else "0") then
          Except.ok () else Except.error CgroupError.WriteError)
       else Except.error CgroupError.FsError) ∧
    (set_memory_spread_page o st b).trace =
      (if o.openOk "cpuset.memory_spread_page" then
        [{ file := "cpuset.memory_spread_page",
           data := if b then "1" else "0" }] else []) ∧
    (set_memory_spread_page o st b).result =
      (if o.openOk "cpuset.memory_spread_page" then
        (if o.writeOk "cpuset.memory_spread_page"
            (if b then "1" else "0") then
          Except.ok () else Except.error CgroupError.WriteError)
       else Except.error CgroupError.FsError) ∧
    (set_memory_spread_slab o st b).trace =
      (if o.openOk "cpuset.memory_spread_slab" then
        [{ file := "cpuset.memory_spread_slab",
           data := if b then "1" else "0" }] else []) ∧
    (set_memory_spread_slab o st b).result =
      (if o.openOk "cpuset.memory_spread_slab" then
        (if o.writeOk "cpuset.memory_spread_slab"
            (if b then "1" else "0") then
          Except.ok () else Except.error CgroupError.WriteError)
       else Except.error CgroupError.FsError) ∧
    (set_enable_memory_pressure o st b).trace =
      (if o.openOk "cpuset.memory_pressure_enabled" then
        [{ file := "cpuset.memory_pressure_enabled",
           data := if b then "1" else "0" }] else []) ∧
    (set_enable_memory_pressure o st b).result =
      (if o.openOk "cpuset.memory_pressure_enabled" then
        (if o.writeOk "cpuset.memory_pressure_enabled"
            (if b then "1" else "0") then
          Except.ok () else Except.error CgroupError.WriteError)
       else Except.error CgroupError.FsError) :=
  ⟨by cases b <;> decide, by cases b <;> decide,
   open_path_write_trace o st _ _, open_path_write_result o st _ _,
   open_path_write_trace o st _ _, open_path_write_result o st _ _,
   open_path_write_trace o st _ _, open_path_write_result o st _ _,
   open_path_write_trace o st _ _, open_path_write_result o st _ _,
   open_path_write_trace o st _ _, open_path_write_result o st _ _,
   open_path_write_trace o st _ _, open_path_write_result o st _ _,
   open_path_write_trace o st _ _, open_path_write_result o st _ _,
   open_path_write_trace o st _ _, open_path_write_result o st _ _⟩

/-- C5, witness: with every open accepted and every write rejected,
`set_cpu_exclusive true` attempts exactly one write of the single byte
`"1"` and returns a `WriteError`. -/
theorem bool_setters_write_single_byte_witness :
    (set_cpu_exclusive oracleNoWrite emptySt true).trace =
      [{ file := "cpuset.cpu_exclusive", data := "1" }] ∧
    (set_cpu_exclusive oracleNoWrite emptySt true).result =
      Except.error CgroupError.WriteError := by
  have h := bool_setters_write_single_byte oracleNoWrite emptySt true
  exact ⟨h.2.2.1, h.2.2.2.1⟩

/-- C6: `set_cpus` and `set_mems` hand exactly the caller-supplied bytes to the
single write, unchanged; kernel rejection surfaces only as a returned
`WriteError`. -/
theorem range_setters_write_verbatim (o : WriteOracle) (st : SysState)
    (s : String) :
    (set_cpus o st s).trace =
      (if o.openOk "cpuset.cpus" then
        [{ file := "cpuset.cpus", data := s }] else []) ∧
    (set_cpus o st s).result =
      (if o.openOk "cpuset.cpus" then
        (if o.writeOk "cpuset.cpus" s then Except.ok ()
         else Except.error CgroupError.WriteError)
       else Except.error CgroupError.FsError) ∧
    (set_mems o st s).trace =
      (if o.openOk "cpuset.mems" then
        [{ file := "cpuset.mems", data := s }] else []) ∧
    (set_mems o st s).result =
      (if o.openOk "cpuset.mems" then
        (if o.writeOk "cpuset.mems" s then Except.ok ()
         else Except.error CgroupError.WriteError)
       else Except.error CgroupError.FsError) :=
  ⟨open_path_write_trace o st _ _, open_path_write_result o st _ _,
   open_path_write_trace o st _ _, open_path_write_result o st _ _⟩

/-- C6, witness: `set_cpus "0-3,7"` writes the literal bytes `0-3,7`, and a
kernel rejection comes back as a `WriteError`. -/
theorem range_setters_write_verbatim_witness :
    (set_cpus oracleAllOk emptySt "0-3,7").trace =
      [{ file := "cpuset.cpus", data := "0-3,7" }] ∧
    (set_cpus oracleNoWrite emptySt "0-3,7").result =
      Except.error CgroupError.WriteError := by
  exact ⟨(range_setters_write_verbatim oracleAllOk emptySt "0-3,7").1,
    (range_setters_write_verbatim oracleNoWrite emptySt "0-3,7").2.1⟩

/-- C7: `set_rebalance_relax_domain_level i` performs one write whose
payload is the decimal text of `i` — `-1` writes the literal bytes `"-1"`
and `6` writes `"6"` — with no range enforcement: every value is forwarded,
and rejection arrives only as a returned `WriteError`. -/
theorem relax_domain_level_writes_decimal (o : WriteOracle) (st : SysState)
    (i : Int) :
    (set_rebalance_relax_domain_level o st i).trace =
      (if o.openOk "cpuset.sched_relax_domain_level" then
        [{ file := "cpuset.sched_relax_domain_level",
           data := i64_to_string i }] else []) ∧
    (set_rebalance_relax_domain_level o st i).result =
      (if o.openOk "cpuset.sched_relax_domain_level" then
        (if o.writeOk "cpuset.sched_relax_domain_level"
            (i64_to_string i) then
          Except.ok () else Except.error CgroupError.WriteError)
       else Except.error CgroupError.FsError) ∧
    i64_to_string (-1) = "-1" ∧
    i64_to_string 6 = "6" :=
  ⟨open_path_write_trace o st _ _, open_path_write_result o st _ _,
   by decide, by decide⟩

/-- C7, witness: `set_rebalance_relax_domain_level (-1)` attempts exactly
one write of the bytes `"-1"`, and an out-of-range value such as `99` is
still forwarded as `"99"`. -/
theorem relax_domain_level_writes_decimal_witness :
    (set_rebalance_relax_domain_level oracleAllOk emptySt (-1)).trace =
      [{ file := "cpuset.sched_relax_domain_level", data := "-1" }] ∧
    (set_rebalance_relax_domain_level oracleAllOk emptySt 99).trace =
      [{ file := "cpuset.sched_relax_domain_level", data := "99" }] := by
  have h1 :=
    (relax_domain_level_writes_decimal oracleAllOk emptySt (-1)).1
  have h2 := (relax_domain_level_writes_decimal oracleAllOk emptySt 99).1
  rw [h1, h2]
  exact ⟨by decide, by decide⟩

/-- C8: round-trip over the file model — when a boolean setter succeeds
against a store that keeps the written bytes verbatim, the corresponding
field of a subsequent `cpuset()` snapshot of the same store carries the
written boolean (`some b` for the optional `memory_pressure_enabled`). -/
theorem bool_setters_roundtrip (o : WriteOracle) (st : SysState) (b : Bool) :
    ((set_cpu_exclusive o st b).result = Except.ok () →
      (cpuset (set_cpu_exclusive o st b).state.files).cpu_exclusive = b) ∧
    ((set_mem_exclusive o st b).result = Except.ok () →
      (cpuset (set_mem_exclusive o st b).state.files).mem_exclusive = b) ∧
    ((set_hardwall o st b).result = Except.ok () →
      (cpuset (set_hardwall o st b).state.files).mem_hardwall = b) ∧
    ((set_load_balancing o st b).result = Except.ok () →
      (cpuset (set_load_balancing o st
        b).state.files).sched_load_balance = b) ∧
    ((set_memory_migration o st b).result = Except.ok () →
      (cpuset (set_memory_migration o st
        b).state.files).memory_migrate = b) ∧
    ((set_memory_spread_page o st b).result = Except.ok () →
      (cpuset (set_memory_spread_page o st
        b).state.files).memory_spread_page = b) ∧
    ((set_memory_spread_slab o st b).result = Except.ok () →
      (cpuset (set_memory_spread_slab o st
        b).state.files).memory_spread_slab = b) ∧
    ((set_enable_memory_pressure o st b).result = Except.ok () →
      (cpuset (set_enable_memory_pressure o st
        b).state.files).memory_pressure_enabled = some b) := by
  refine ⟨?_, ?_, ?_, ?_, ?_, ?_, ?_, ?_⟩ <;> intro h
  all_goals first
    | exact bool_roundtrip_read _ _ b (open_path_write_ok_files o st _ _ h)
    | exact optBool_roundtrip_read _ _ b
        (open_path_write_ok_files o st _ _ h)

/-- C8, witness: against a fully accepting store, `set_cpu_exclusive true`
reads back as `true` and `set_enable_memory_pressure false` reads back as
`some false`. -/
theorem bool_setters_roundtrip_witness :
    (cpuset (set_cpu_exclusive oracleAllOk emptySt
      true).state.files).cpu_exclusive = true ∧
    (cpuset (set_enable_memory_pressure oracleAllOk emptySt
      false).state.files).memory_pressure_enabled = some false := by
  have h1 := bool_setters_roundtrip oracleAllOk emptySt true
  have h2 := bool_setters_roundtrip oracleAllOk emptySt false
  exact ⟨h1.1 rfl, h2.2.2.2.2.2.2.2 rfl⟩

/-- C9: in the bulk `apply` with `update_values` set, the `mems` write is
attempted no matter how the preceding `cpus` write turned out: for every
oracle — including any in which the `cpus` write fails — the write trace
contains the `mems` attempt whenever its file can be opened. -/
theorem apply_attempts_mems_regardless_of_cpus (o : WriteOracle)
    (st : SysState) (res : CpuResources)
    (hu : res.update_values = true)
    (hm : o.openOk "cpuset.mems" = true) :
    { file := "cpuset.mems", data := res.mems } ∈ (apply o st res).2 := by
  have htrace : (apply o st res).2 =
      (set_cpus o st res.cpus).trace ++
        (set_mems o (set_cpus o st res.cpus).state res.mems).trace := by
    simp [apply, hu]
  have hmems : (set_mems o (set_cpus o st res.cpus).state res.mems).trace =
      [{ file := "cpuset.mems", data := res.mems }] := by
    have h := open_path_write_trace o (set_cpus o st res.cpus).state
      "cpuset.mems" res.mems
    rw [hm] at h
    simpa using h
  rw [htrace, hmems]
  exact List.mem_append_right _ (List.mem_singleton_self _)

/-- C9, witness: with an oracle that rejects every write to `cpuset.cpus`
(the `cpus` write returns a `WriteError`), the `mems` write is still
attempted. -/
theorem apply_attempts_mems_regardless_of_cpus_witness :
    { file := "cpuset.mems", data := "0" } ∈
      (apply oracleCpusFail emptySt
        { update_values := true, cpus := "0-3", mems := "0" }).2 ∧
    (set_cpus oracleCpusFail emptySt "0-3").result =
      Except.error CgroupError.WriteError := by
  constructor
  · exact apply_attempts_mems_regardless_of_cpus oracleCpusFail emptySt
      { update_values := true, cpus := "0-3", mems := "0" } rfl rfl
  · have h := open_path_write_result oracleCpusFail emptySt
      "cpuset.cpus" "0-3"
    simpa [oracleCpusFail] using h

/-- C10: the snapshot decodes `sched_relax_domain_level` with the unsigned
parser, so the content `"-1"` fails to parse and the field defaults to `0`;
in particular `set_rebalance_relax_domain_level (-1)` followed by
`cpuset()` observes `0`, never `-1`. -/
theorem sched_relax_negative_reads_as_zero :
    parseU64 "-1" = none ∧
    (∀ (fs : FS) (c : String),
      fs "cpuset.sched_relax_domain_level" = some c →
      rustTrim c = "-1" →
      (cpuset fs).sched_relax_domain_level = 0) ∧
    (∀ (o : WriteOracle) (st : SysState),
      o.openOk "cpuset.sched_relax_domain_level" = true →
      o.writeOk "cpuset.sched_relax_domain_level" "-1" = true →
      (cpuset (set_rebalance_relax_domain_level o st
        (-1)).state.files).sched_relax_domain_level = 0) := by
  have key : ∀ (fs : FS) (c : String),
      fs "cpuset.sched_relax_domain_level" = some c →
      rustTrim c = "-1" →
      (cpuset fs).sched_relax_domain_level = 0 := by
    intro fs c h1 h2
    show unwrapOr ((open_path_read fs
      "cpuset.sched_relax_domain_level").bind read_u64_from) 0 = 0
    unfold open_path_read
    rw [h1]
    show unwrapOr (read_u64_from c) 0 = 0
    unfold read_u64_from
    rw [h2]
    decide
  refine ⟨by decide, key, ?_⟩
  intro o st h1 h2
  have hneg : i64_to_string (-1) = "-1" := by decide
  have hok : (set_rebalance_relax_domain_level o st (-1)).result =
      Except.ok () := by
    have h := open_path_write_result o st
      "cpuset.sched_relax_domain_level" (i64_to_string (-1))
    rw [hneg, h1, h2] at h
    simpa using h
  have hfiles := open_path_write_ok_files o st
    "cpuset.sched_relax_domain_level" (i64_to_string (-1)) hok
  rw [hneg] at hfiles
  exact key _ "-1" hfiles (by decide)

/-- C10, witness: a store whose `cpuset.sched_relax_domain_level` file
holds `"-1"` snapshots that field as `0`. -/
theorem sched_relax_negative_reads_as_zero_witness :
    (cpuset (fun n =>
      if n = "cpuset.sched_relax_domain_level" then some "-1"
      else none)).sched_relax_domain_level = 0 :=
  sched_relax_negative_reads_as_zero.2.1
    (fun n => if n = "cpuset.sched_relax_domain_level" then some "-1"
      else none) "-1" (by decide) (by decide)

end Cgroup
